import Mathlib

/-!
Verification of the daily_meditation retrieval pipeline.

Shallow embedding of the Python sources under `app/`:
* `app/agents/audio_retriever.py`   — `AudioRetrieverAgent` (duration parsing,
  `find_meditation`, `_scrape_pixabay`)
* `app/agents/audio_quality_checker.py` — `AudioQualityCheckerAgent.check_quality`
* `app/agents/apple_music_api.py`   — `AppleMusicAgent.find_meditation` (cache
  branch, recently-used FIFO)
* `app/agents/orchestrator.py`      — `MeditationOrchestrator.generate_meditation`

Strings are modelled as `List Char`; Python `random.choice` is modelled by an
explicit index supplied by the caller; network and filesystem effects are
oracles passed in as function arguments.  Python exceptions are modelled with
`Except`.
-/

namespace DailyMeditation

/-! ## Python string primitives

`isPyDigit` / `isPySpace` mirror what Python's `str.isdigit`-class, `\d`, `\s`
and `str.strip()` do on the ASCII inputs these parsers receive. -/

def isPyDigit (c : Char) : Bool := c.isDigit

def isPySpace (c : Char) : Bool :=
  c = ' ' || c = '\t' || c = '\n' || c = '\r' || c = '\x0b' || c = '\x0c'

/-- Python `str.strip()`: drop leading and trailing whitespace. -/
def pyStrip (s : List Char) : List Char :=
  ((s.dropWhile isPySpace).reverse.dropWhile isPySpace).reverse

/-- Python `str.lower()` (ASCII). -/
def pyLower (s : List Char) : List Char := s.map Char.toLower

/-- Python `str.split(sep)` for a one-character separator: keeps empty parts,
returns at least one part. -/
def splitOnChar (sep : Char) : List Char → List (List Char)
  | [] => [[]]
  | c :: rest =>
    match splitOnChar sep rest with
    | [] => [[c]]
    | h :: t => if c = sep then [] :: h :: t else (c :: h) :: t

/-- Numeric value of a digit string (most significant first). -/
def digitsVal (l : List Char) : Nat :=
  l.foldl (fun a c => a * 10 + (c.toNat - '0'.toNat)) 0

/-- Python `int(s)`: optional surrounding whitespace, optional sign, then a
non-empty run of digits; anything else raises `ValueError` (here: `none`). -/
def pyInt (s : List Char) : Option Int :=
  match pyStrip s with
  | [] => none
  | c :: rest =>
    if c = '+' then
      if rest ≠ [] ∧ rest.all isPyDigit then some (digitsVal rest : Int) else none
    else if c = '-' then
      if rest ≠ [] ∧ rest.all isPyDigit then some (-(digitsVal rest : Int)) else none
    else if (c :: rest).all isPyDigit then some (digitsVal (c :: rest) : Int)
    else none

/-! ## Regex searches used by the duration predicates

`audio_retriever.py:544` does `re.search(r'(\d+)\s*min', text)`;
`audio_retriever.py:562` does `re.findall(r'(\d+)\s*(minute|min|m)\w*', text)`
and returns on the first match; `audio_retriever.py:571` does
`re.findall(r'(\d+):(\d+)(?::(\d+))?', text)` and returns on the first match,
reading only the first two groups.  A leftmost regex match of these patterns
always starts at the first character of a maximal digit run, so a left-to-right
scan that tests each digit run is an exact model. -/

/-- Leftmost match of `(\d+)\s*min`: the digit-group value, if any. -/
def findNumMin : List Char → Option Nat
  | [] => none
  | c :: rest =>
    if isPyDigit c then
      let digits := List.takeWhile isPyDigit (c :: rest)
      let afterSpaces := (List.dropWhile isPyDigit (c :: rest)).dropWhile isPySpace
      if List.isPrefixOf ['m', 'i', 'n'] afterSpaces then some (digitsVal digits)
      else findNumMin rest
    else findNumMin rest

/-- Leftmost match of `(\d+)\s*(minute|min|m)\w*`: the digit-group value.  The
alternation succeeds exactly when the character after the optional spaces is
`m` (the `m` alternative asks for nothing more). -/
def findNumM : List Char → Option Nat
  | [] => none
  | c :: rest =>
    if isPyDigit c then
      let digits := List.takeWhile isPyDigit (c :: rest)
      let afterSpaces := (List.dropWhile isPyDigit (c :: rest)).dropWhile isPySpace
      if afterSpaces.headD ' ' = 'm' then some (digitsVal digits)
      else findNumM rest
    else findNumM rest

/-- Leftmost match of `(\d+):(\d+)(?::(\d+))?`: the first two groups.  The
optional third group never influences the caller. -/
def findColon : List Char → Option (Nat × Nat)
  | [] => none
  | c :: rest =>
    if isPyDigit c then
      let a := List.takeWhile isPyDigit (c :: rest)
      let w := List.dropWhile isPyDigit (c :: rest)
      if w.headD ' ' = ':' ∧ isPyDigit (w.tail.headD ' ') = true then
        some (digitsVal a, digitsVal (w.tail.takeWhile isPyDigit))
      else findColon rest
    else findColon rest

/-! ## Duration-suitability predicates

`AudioRetrieverAgent._is_duration_suitable` (audio_retriever.py:513-549) and
`AudioRetrieverAgent._is_duration_suitable_text` (audio_retriever.py:551-584). -/

/-- `_is_duration_suitable`: split the stripped text on `:`; two parts → parse
`parts[0]` as minutes (`parts[1]` is never parsed); three parts → parse hours
and minutes, reject when `hours > 0`; a `ValueError` or any other shape falls
through to the `(\d+)\s*min` regex on the lowercased text. -/
def is_duration_suitable (s : List Char) : Bool :=
  let parts := splitOnChar ':' (pyStrip s)
  let viaSplit : Option Bool :=
    match parts with
    | [p0, _] =>
      match pyInt p0 with
      | some m => some (decide (8 ≤ m ∧ m ≤ 15))
      | none => none
    | [p0, p1, _] =>
      match pyInt p0, pyInt p1 with
      | some h, some m => some (if 0 < h then false else decide (8 ≤ m ∧ m ≤ 15))
      | _, _ => none
    | _ => none
  match viaSplit with
  | some b => b
  | none =>
    match findNumMin (pyLower s) with
    | some m => decide (8 ≤ m ∧ m ≤ 15)
    | none => false

/-- `_is_duration_suitable_text`: first match of `(\d+)\s*(minute|min|m)\w*` on
the lowercased text decides; otherwise the first match of
`(\d+):(\d+)(?::(\d+))?` decides via `total = 60 * g1 + g2` (the tuple produced
by `re.findall` always has three entries, so the `len(match) == 2` branch of the
Python code is dead and the first two groups are read as hours and minutes). -/
def is_duration_suitable_text (s : List Char) : Bool :=
  match findNumM (pyLower s) with
  | some m => decide (8 ≤ m ∧ m ≤ 15)
  | none =>
    match findColon s with
    | some (h, m) => decide (8 ≤ h * 60 + m ∧ h * 60 + m ≤ 15)
    | none => false

/-! ## Audio quality checker

`AudioQualityCheckerAgent.check_quality` (audio_quality_checker.py:48-184).
The pydub measurements of an artifact are modelled by `AudioProps`; the
`mediainfo` bitrate string parse (lines 83-97) is abstracted into the measured
`bitrate_kbps`, and loudness values are modelled at integer dB precision.
`chunkAt i` is the dBFS of `audio[i : i + 1000]` (clipped at the end of the
file), as used by the intro/outro silence scans. -/

/-- The issue strings appended by `check_quality`, as an inductive tag.  The
constructor names record which of the substrings tested by the soft-pass rule
(line 169-174: `"outside ideal range"`, `"silent intro"`, `"silent outro"`)
occur in the corresponding message; none of the other messages contains any of
them. -/
inductive QIssue where
  /-- "Duration (...) outside ideal range (8-12 min)" (line 114) -/
  | durationIdeal
  /-- "Duration (...) outside acceptable range (5-15 min)" (line 119) -/
  | durationAcceptable
  /-- "Bitrate too low: ..." (line 124) -/
  | bitrateLow
  /-- "Sample rate too low: ..." (line 128) -/
  | sampleRateLow
  /-- "Audio may be too quiet: ..." (line 132) -/
  | tooQuiet
  /-- "Long silent intro: ..." (line 149) -/
  | introSilence
  /-- "Long silent outro: ..." (line 162) -/
  | outroSilence
deriving DecidableEq, Repr

/-- Which issue messages contain one of the three substrings looked for by the
soft-pass rule at lines 169-174. -/
def minorIssue : QIssue → Bool
  | .durationIdeal => true
  | .introSilence => true
  | .outroSilence => true
  | _ => false

/-- Measurements pydub reports for a successfully loaded artifact. -/
structure AudioProps where
  duration_ms : Nat
  channels : Nat
  sample_width_bits : Nat
  frame_rate : Nat
  bitrate_kbps : Int
  dBFS : Int
  chunkAt : Nat → Int

/-- An artifact on disk: whether the path exists, its byte size, and the pydub
load result (`none` models `AudioSegment.from_file` raising). -/
structure FileArtifact where
  present : Bool
  size : Nat
  load : Option AudioProps

/-- The `{"error": ...}` dictionaries returned by the early-return and
exception paths of `check_quality`. -/
inductive QError where
  /-- `{"error": "File does not exist"}` (line 63) -/
  | fileDoesNotExist
  /-- `{"error": "File too small", "size_bytes": n}` (line 69) -/
  | fileTooSmall (size_bytes : Nat)
  /-- `{"error": "Failed to analyze audio: ..."}` (line 184) -/
  | analysisFailed
deriving DecidableEq, Repr

/-- The details dictionary of `check_quality`: either an error dictionary or a
measurement report carrying the ordered issues list. -/
inductive QReport where
  | err (e : QError)
  | report (is_acceptable : Bool) (issues : List QIssue)
deriving DecidableEq, Repr

/-- Leading-silence scan (lines 140-146): 1-second chunks from the start, count
while the chunk is below −40 dB, stop at the first non-silent chunk. -/
def countIntroSilence (chunk : Nat → Int) : List Nat → Nat
  | [] => 0
  | i :: rest => if chunk i < -40 then 1000 + countIntroSilence chunk rest else 0

/-- Trailing-silence scan (lines 153-159): count silent chunks, resetting the
counter on any non-silent chunk. -/
def countOutroSilence (chunk : Nat → Int) (acc : Nat) : List Nat → Nat
  | [] => acc
  | i :: rest =>
    if chunk i < -40 then countOutroSilence chunk (acc + 1000) rest
    else countOutroSilence chunk 0 rest

/-- `range(0, min(30000, duration_ms), 1000)` of line 141. -/
def introOffsets (duration_ms : Nat) : List Nat :=
  List.range' 0 ((min 30000 duration_ms + 999) / 1000) 1000

/-- `range(max(0, duration_ms - 10000), duration_ms, 1000)` of line 154. -/
def outroOffsets (duration_ms : Nat) : List Nat :=
  List.range' (duration_ms - 10000) ((duration_ms - (duration_ms - 10000) + 999) / 1000) 1000

/-- The ordered issues list accumulated at lines 110-163 for a loaded
artifact. -/
def qualityIssues (a : AudioProps) : List QIssue :=
  let durIssues :=
    if a.duration_ms < 8 * 60 * 1000 ∨ a.duration_ms > 12 * 60 * 1000 then
      .durationIdeal ::
        (if a.duration_ms < 5 * 60 * 1000 ∨ a.duration_ms > 15 * 60 * 1000 then
          [.durationAcceptable] else [])
    else []
  let l1 := durIssues ++ (if a.bitrate_kbps < 64 then [.bitrateLow] else [])
  let l2 := l1 ++ (if a.frame_rate < 22050 then [.sampleRateLow] else [])
  let l3 := l2 ++ (if a.dBFS < -45 then [.tooQuiet] else [])
  let introMs := countIntroSilence a.chunkAt (introOffsets a.duration_ms)
  let l4 := l3 ++ (if introMs > 15 * 1000 then [.introSilence] else [])
  let outroMs := countOutroSilence a.chunkAt 0 (outroOffsets a.duration_ms)
  l4 ++ (if outroMs > 5 * 1000 then [.outroSilence] else [])

/-- Acceptance decision of lines 165-174: acceptable when there is no issue, or
when there is exactly one issue and its message contains one of the three minor
substrings. -/
def qualityAcceptable (issues : List QIssue) : Bool :=
  let base := issues.length == 0
  if issues.length == 1 && minorIssue (issues.headD .durationIdeal) then true else base

/-- `AudioQualityCheckerAgent.check_quality`: returns
`(is_quality_acceptable, details)`.  Missing file and sub-1KB file return
before any pydub call; a load failure is caught by the `except` at line 182. -/
def check_quality (f : FileArtifact) : Bool × QReport :=
  if ¬ f.present then (false, .err .fileDoesNotExist)
  else if f.size < 1024 then (false, .err (.fileTooSmall f.size))
  else
    match f.load with
    | none => (false, .err .analysisFailed)
    | some a =>
      let issues := qualityIssues a
      let acc := qualityAcceptable issues
      (acc, .report acc issues)

/-! ## Apple Music agent

`AppleMusicAgent.find_meditation` (apple_music_api.py:233-314), cache branch
and recently-used FIFO. -/

/-- A cached/“found” Apple Music track: its catalog id and preview URL. -/
structure AmTrack where
  trackId : String
  preview : Option String
deriving DecidableEq, Repr

/-- `random.choice` modelled by an explicit index. -/
def pyChoiceTrack (l : List AmTrack) (k : Nat) : AmTrack :=
  l.getD (k % l.length) ⟨"", none⟩

/-- `random.choice` over URL strings, modelled by an explicit index. -/
def pyChoice (l : List String) (k : Nat) : String :=
  l.getD (k % l.length) ""

/-- The recently-used update (apple_music_api.py:264-267 and 305-308):
`self.recently_used_tracks.append(id)` then `pop(0)` when the length exceeds
5. -/
def pushRecent (recent : List String) (t : String) : List String :=
  let r := recent ++ [t]
  if r.length > 5 then r.tail else r

/-- The network half of `find_meditation` (lines 271-314): the query loop,
search and filtering are abstracted into the already-filtered list `netTracks`;
a non-empty result is cached, selected from and pushed onto the recently-used
list, otherwise the method returns `(None, None)`. -/
def appleNetSearch (netTracks : List AmTrack) (netPick : Nat) (recent : List String) :
    Option AmTrack × List String :=
  if ¬ netTracks.isEmpty then
    let sel := pyChoiceTrack netTracks netPick
    (some sel, pushRecent recent sel.trackId)
  else (none, recent)

/-- `AppleMusicAgent.find_meditation`: `cached` is
`self.search_cache[cache_key]` when the key is present.  Lines 247-269: with a
non-empty cached list, filter out recently-used tracks, reset the filter to the
full cached list when that leaves nothing, select at random, update the
recently-used FIFO and return; only an absent or empty cache entry reaches the
network search.  Returns the selected track (`none` models `(None, None)`) and
the updated recently-used list. -/
def appleFindMeditation (cached : Option (List AmTrack)) (recent : List String)
    (cachePick : Nat) (netTracks : List AmTrack) (netPick : Nat) :
    Option AmTrack × List String :=
  match cached with
  | some ts =>
    if ts.isEmpty then appleNetSearch netTracks netPick recent
    else
      let available := ts.filter (fun t => ¬ recent.contains t.trackId)
      let available := if available.isEmpty then ts else available
      if ¬ available.isEmpty then
        let sel := pyChoiceTrack available cachePick
        (some sel, pushRecent recent sel.trackId)
      else appleNetSearch netTracks netPick recent
  | none => appleNetSearch netTracks netPick recent

/-! ## Audio retriever agent

`AudioRetrieverAgent` (audio_retriever.py).  `find_meditation` (lines 134-218)
and `_scrape_pixabay` (lines 220-324). -/

/-- Python exceptions that the retriever embedding distinguishes. -/
inductive PyErr where
  | attributeError
deriving DecidableEq, Repr

/-- `self.ucla_french_meditations` (audio_retriever.py:89-96). -/
def ucla_french_meditations : List String :=
  ["https://d1cy5zxxhbcbkk.cloudfront.net/guided-meditations/French-bodyscan.mp3",
   "https://d1cy5zxxhbcbkk.cloudfront.net/guided-meditations/French-breathsoundbody.mp3",
   "https://d1cy5zxxhbcbkk.cloudfront.net/guided-meditations/French-breathing.mp3",
   "https://d1cy5zxxhbcbkk.cloudfront.net/guided-meditations/French-complete.mp3",
   "https://d1cy5zxxhbcbkk.cloudfront.net/guided-meditations/French-lovingKindness.mp3",
   "https://d1cy5zxxhbcbkk.cloudfront.net/guided-meditations/French-workingwithdifficulties.mp3"]

/-- `self.archive_direct_files["default"]` (audio_retriever.py:126-131). -/
def archive_default_files : List String :=
  ["https://archive.org/download/peaceful-music-for-meditation/Peaceful%20Music%20for%20Meditation.mp3",
   "https://archive.org/download/meditation-music-relax-mind-body/Meditation%20Music%20-%20Relax%20Mind%20Body.mp3",
   "https://archive.org/download/ambient-sleep-music-for-deep-sleep/Ambient%20Sleep%20Music%20for%20Deep%20Sleep.mp3",
   "https://archive.org/download/MeditationMusic_20162107/Meditation%20Music.mp3"]

/-- `self.archive_direct_files.get(mood, self.archive_direct_files["default"])`
(audio_retriever.py:100-132, looked up at line 167).  The dictionary has the
five mood keys below plus `"default"`. -/
def archive_direct_files (mood : List Char) : List String :=
  if mood = "calm".toList then
    ["https://archive.org/download/InterludeForMindfulness/Interlude%20for%20Mindfulness.mp3",
     "https://archive.org/download/meditation-music-relax-mind-body/Meditation%20Music%20-%20Relax%20Mind%20Body.mp3",
     "https://archive.org/download/MeditationMusic_201610/Meditation%20Music.mp3"]
  else if mood = "focused".toList then
    ["https://archive.org/download/MeditationMusic_20162107/Meditation%20Music.mp3",
     "https://archive.org/download/ambient-sleep-music-for-deep-sleep/Ambient%20Sleep%20Music%20for%20Deep%20Sleep.mp3",
     "https://archive.org/download/night-meditation-sleeping-music/Night%20Meditation%20-%20Sleeping%20Music.mp3"]
  else if mood = "relaxed".toList then
    ["https://archive.org/download/sacred-meditation-music/Sacred%20Meditation%20Music.mp3",
     "https://archive.org/download/calm-meditation-music-for-stress-relief/Calm%20Meditation%20Music%20for%20Stress%20Relief.mp3",
     "https://archive.org/download/MeditationCompilation/Meditation%20Compilation.mp3"]
  else if mood = "energized".toList then
    ["https://archive.org/download/morning-meditation-wake-up-music/Morning%20Meditation%20-%20Wake%20Up%20Music.mp3",
     "https://archive.org/download/meditation-music-relax-mind-body/Meditation%20Music%20-%20Relax%20Mind%20Body.mp3",
     "https://archive.org/download/ambient-meditation-music/Ambient%20Meditation%20Music.mp3"]
  else if mood = "grateful".toList then
    ["https://archive.org/download/peaceful-music-for-meditation/Peaceful%20Music%20for%20Meditation.mp3",
     "https://archive.org/download/InterludeForMindfulness/Interlude%20for%20Mindfulness.mp3",
     "https://archive.org/download/indian-meditation-music/Indian%20Meditation%20Music.mp3"]
  else archive_default_files

/-- A fetched Pixabay results page: the HTTP status and the audio links the
three soup scans of lines 270-309 harvest from it (duration filtering
included).  The link extraction itself is abstracted since only the error
behaviour of `_scrape_pixabay` is at issue. -/
structure PixabayPage where
  status : Nat
  audio_links : List String
deriving DecidableEq, Repr

/-- `AudioRetrieverAgent._scrape_pixabay` (audio_retriever.py:220-324).
`http` models `session.get(...)` (`.error` = transport error/timeout).

Every fallback path of this method evaluates
`self.reliable_meditation_urls` (lines 261, 266, 318, 323) — but no assignment
to that attribute exists anywhere in the repository, so the read raises
`AttributeError`.  For the in-`try` occurrences (261, 266, 318) the
`AttributeError` is first caught by the `except Exception` at line 320, whose
handler evaluates the same attribute again at line 323 and the second
`AttributeError` propagates out of the method. -/
def scrape_pixabay (http : Except Unit PixabayPage) (pick : Nat) :
    Except PyErr (Option String) :=
  match http with
  | .error _ => .error .attributeError
  | .ok page =>
    if page.status = 403 then .error .attributeError
    else if page.status ≠ 200 then .error .attributeError
    else
      match page.audio_links with
      | [] => .error .attributeError
      | links => .ok (some (pyChoice links pick))

/-- The external effects of the scraping branches of
`find_meditation` (audio_retriever.py:174-218). -/
structure RetrieverScrapeO where
  /-- `random.choices(["archive", "pixabay"], weights=[80, 20])`: `true` =
  `"archive"`. -/
  sourceArchive : Bool
  /-- `random.sample(self.archive_collections, 3)` then
  `_scrape_archive_collection` on each: first hit, if any. -/
  collectionsHit : Option String
  /-- `_scrape_archive_org(query)` per query string. -/
  archiveSearch : String → Option String
  /-- `session.get` of `_scrape_pixabay` per query string. -/
  pixabayHttp : String → Except Unit PixabayPage
  /-- index for the `random.choice(pixabay_urls)` at line 214. -/
  pixabayPick : Nat

/-- `self.mood_to_query.get`-style lookup of lines 155-159 (only the query
strings' identities matter: they are passed to scraping oracles). -/
def mood_to_query (mood : List Char) : List String :=
  if mood = "calm".toList then
    ["calm meditation music 10 minutes", "calming music meditation", "peaceful meditation"]
  else if mood = "focused".toList then
    ["focus meditation music 10 minutes", "concentration music", "focus meditation"]
  else if mood = "relaxed".toList then
    ["relaxing meditation music 10 minutes", "relaxation music", "sleep meditation"]
  else if mood = "energized".toList then
    ["energizing meditation music", "morning meditation", "energy boost music"]
  else if mood = "grateful".toList then
    ["gratitude meditation music", "gratitude practice", "appreciation meditation"]
  else if mood = "happy".toList then
    ["happiness meditation music", "joyful meditation", "positive energy music"]
  else if mood = "peaceful".toList then
    ["peaceful meditation music", "peace meditation", "tranquil meditation"]
  else if mood = "confident".toList then
    ["confidence meditation music", "self-esteem meditation", "empowerment music"]
  else if mood = "creative".toList then
    ["creativity meditation music", "creative flow music", "inspiration meditation"]
  else if mood = "compassionate".toList then
    ["compassion meditation music", "loving-kindness", "heart meditation"]
  else ["meditation music", "mindfulness meditation", "relaxing music"]

/-- First `some` produced by `f` along `l` (the `for query in queries` loops at
lines 194-200). -/
def firstHit (f : String → Option String) : List String → Option String
  | [] => none
  | q :: rest =>
    match f q with
    | some u => some u
    | none => firstHit f rest

/-- The Pixabay query loop of lines 204-211: collect the per-query results,
propagating any exception a `_scrape_pixabay` call raises. -/
def pixabayLoop (o : RetrieverScrapeO) : List String → Except PyErr (List String)
  | [] => .ok []
  | q :: rest =>
    match scrape_pixabay (o.pixabayHttp q) o.pixabayPick with
    | .error e => .error e
    | .ok r =>
      match pixabayLoop o rest with
      | .error e => .error e
      | .ok us =>
        .ok (match r with
             | some u => u :: us
             | none => us)

/-- The scraping branches of `find_meditation` (audio_retriever.py:174-218),
reached only when the mood's direct-file list is empty. -/
def scrapeBranches (queries : List String) (o : RetrieverScrapeO) :
    Except PyErr String :=
  if o.sourceArchive then
    match o.collectionsHit with
    | some u => .ok u
    | none =>
      match firstHit o.archiveSearch queries with
      | some u => .ok u
      | none => .ok (archive_default_files.getD 0 "")
  else
    match pixabayLoop o queries with
    | .error e => .error e
    | .ok [] => .ok (archive_default_files.getD 0 "")
    | .ok (u :: us) => .ok (pyChoice (u :: us) o.pixabayPick)

/-- `AudioRetrieverAgent.find_meditation` (audio_retriever.py:134-218): lower
and strip mood and language; for French return a random UCLA file; otherwise
return a random entry of the mood's (or the default) direct-file list; the
scraping branches follow only when that list is empty. -/
def retrieverFindMeditation (mood language : String) (uclaPick moodPick : Nat)
    (o : RetrieverScrapeO) : Except PyErr String :=
  let m := pyLower (pyStrip mood.toList)
  let lang := pyLower (pyStrip language.toList)
  if lang = "french".toList then .ok (pyChoice ucla_french_meditations uclaPick)
  else
    let queries :=
      if lang ≠ "english".toList then
        (mood_to_query m).map (fun q => q ++ " " ++ String.mk lang)
      else mood_to_query m
    let mood_files := archive_direct_files m
    if ¬ mood_files.isEmpty then .ok (pyChoice mood_files moodPick)
    else scrapeBranches queries o

/-! ## Meditation orchestrator

`MeditationOrchestrator.generate_meditation` (orchestrator.py:55-213), with
`max_attempts = 5` (line 53) and `max_url_attempts = 3` (line 97).  Network
effects (retriever, downloader) are oracles that may throw; the quality checker
and trimmer catch internally and are total.  Local filesystem primitives
(`getsize`, `copy2`, `touch` on paths the code itself created) are modelled as
reliable; the temp-file cleanup loop (lines 204-210) never touches
`output_path` and does not affect the returned value, so it is not modelled. -/

/-- The downloader's result for a URL: the path it returns and that file's
size.  `download_audio` signals failure by returning a fallback/error file
path, detected at orchestrator.py:116 by substring tests and a size check. -/
structure DlFile where
  path : String
  size : Nat
deriving DecidableEq, Repr

/-- Python `pat in s` substring test. -/
def subOccurs (pat : List Char) : List Char → Bool
  | [] => pat.isEmpty
  | c :: t => pat.isPrefixOf (c :: t) || subOccurs pat t

/-- `"fallback" in audio_path or "error" in audio_path` (orchestrator.py:116). -/
def pathHasFailMarker (p : String) : Bool :=
  subOccurs "fallback".toList p.toList || subOccurs "error".toList p.toList

/-- External collaborators of `generate_meditation`.  `find` is indexed by the
running count of `retriever.find_meditation` calls; `quality` returns
`(is_acceptable, duration_minutes)` (`check_quality` never raises); `trim`
maps the path/size of a too-long file to the path/size
`trim_audio_if_needed` hands back (it returns the input on failure, never
raising). -/
structure OrchO where
  find : Nat → Except Unit String
  download : String → Except Unit DlFile
  quality : String → Bool × Rat
  trim : String × Nat → String × Nat

/-- What ends up in the output file. -/
inductive OutContent where
  /-- the bytes of `path` (of size `size`) were copied into the output path -/
  | copiedFrom (path : String) (size : Nat)
  /-- the output path was merely `touch`-ed (orchestrator.py:201): empty file -/
  | placeholder
deriving DecidableEq, Repr

/-- `failed_urls.add(u)` on the set of failed URLs (kept as a list). -/
def addFailed (failed : List String) (u : String) : List String :=
  if failed.contains u then failed else u :: failed

/-- The URL-selection loop (orchestrator.py:96-106): up to 3
`retriever.find_meditation` calls looking for a URL not in `failed_urls`; if
all three candidates are already failed, the third is used anyway ("using the
last one anyway", line 106).  An exception from `find` aborts the attempt
(`.error` carries the last URL assigned before the raise, which the attempt's
exception handler adds to `failed_urls`). -/
def pickUrl (find : Nat → Except Unit String) (calls : Nat) (failed : List String) :
    Except (Option String × Nat) (String × Nat) :=
  match find calls with
  | .error _ => .error (none, calls + 1)
  | .ok u1 =>
    if ¬ failed.contains u1 then .ok (u1, calls + 1)
    else
      match find (calls + 1) with
      | .error _ => .error (some u1, calls + 2)
      | .ok u2 =>
        if ¬ failed.contains u2 then .ok (u2, calls + 2)
        else
          match find (calls + 2) with
          | .error _ => .error (some u2, calls + 3)
          | .ok u3 => .ok (u3, calls + 3)

/-- Mutable state threaded through the attempts: `failed_urls`, `temp_files`
(with sizes), the count of `find` calls made, and an observation trace of the
URLs handed to the downloader, each flagged with whether it was already in
`failed_urls` at that moment. -/
structure OrchState where
  failed : List String
  temps : List (String × Nat)
  calls : Nat
  trace : List (String × Bool)
deriving Repr

/-- Result of one iteration of the attempt loop. -/
structure AttemptRes where
  st : OrchState
  /-- `final_audio_path` (the assigned path) and the output content, when this
  attempt set them (orchestrator.py:137-141) -/
  final : Option (String × OutContent)
  /-- `is_acceptable` of the used file: `true` breaks the loop (line 143-145) -/
  accepted : Bool

/-- One iteration of the attempt loop (orchestrator.py:91-158).  `isLast` is
`attempt == self.max_attempts`.  Any exception raised inside the body is caught
at line 154 and the current URL, if assigned, is added to `failed_urls`. -/
def attemptStep (o : OrchO) (isLast : Bool) (outP : String) (s : OrchState) :
    AttemptRes :=
  match pickUrl o.find s.calls s.failed with
  | .error (lastUrl, calls₂) =>
    let failed₂ :=
      match lastUrl with
      | some u => addFailed s.failed u
      | none => s.failed
    ⟨⟨failed₂, s.temps, calls₂, s.trace⟩, none, false⟩
  | .ok (url, calls₂) =>
    let trace₂ := s.trace ++ [(url, s.failed.contains url)]
    match o.download url with
    | .error _ =>
      ⟨⟨addFailed s.failed url, s.temps, calls₂, trace₂⟩, none, false⟩
    | .ok f =>
      let temps₂ := s.temps ++ [(f.path, f.size)]
      if pathHasFailMarker f.path || f.size < 10240 then
        -- line 116-119: download failed or produced a tiny file
        ⟨⟨addFailed s.failed url, temps₂, calls₂, trace₂⟩, none, false⟩
      else
        let q := o.quality f.path
        if q.1 || isLast then
          -- line 125-147: use this file (trimming it first when longer than
          -- 12 minutes), copy it to the output path
          let pq := if q.2 > 12 then o.trim (f.path, f.size) else (f.path, f.size)
          let temps₃ := if pq.1 ≠ f.path then temps₂ ++ [pq] else temps₂
          ⟨⟨s.failed, temps₃, calls₂, trace₂⟩, some (outP, .copiedFrom pq.1 pq.2), q.1⟩
        else
          -- line 148-152: rejected, exclude the URL and continue
          ⟨⟨addFailed s.failed url, temps₂, calls₂, trace₂⟩, none, false⟩

/-- The attempt loop, by remaining attempts; the last iteration (fuel 1) is
attempt `max_attempts`. -/
def runAttempts (o : OrchO) (outP : String) :
    Nat → OrchState → OrchState × Option (String × OutContent)
  | 0, s => (s, none)
  | n + 1, s =>
    let r := attemptStep o (n = 0) outP s
    match r.final with
    | some f => (r.st, some f)
    | none => runAttempts o outP n r.st

/-- The guaranteed fallback URL of orchestrator.py:188. -/
def fallback_url : String :=
  "https://www.freemindfulness.org/download/Breath%20meditation.mp3"

/-- The exhaustion path (orchestrator.py:162-202), run when no attempt set
`final_audio_path`: reuse the last temp file larger than 10KB if any; else
download the hardcoded `fallback_url` (exceptions caught at line 195); if the
output is still unset, `touch` an empty placeholder. -/
def exhaustedFallback (o : OrchO) (outP : String) (s : OrchState) :
    (String × OutContent) × OrchState :=
  let valid := s.temps.filter (fun ps => 10240 < ps.2)
  let final₁ : Option (String × OutContent) :=
    match valid.getLast? with
    | some ps => some (outP, .copiedFrom ps.1 ps.2)
    | none => none
  -- line 184: `final_audio_path is None or os.path.getsize(...) < 10240`
  let needFallback :=
    match final₁ with
    | none => true
    | some (_, .copiedFrom _ sz) => sz < 10240
    | some (_, .placeholder) => true
  let afterFb :=
    if needFallback then
      match o.download fallback_url with
      | .ok f =>
        if 10240 < f.size then
          (some (outP, OutContent.copiedFrom f.path f.size),
           { s with temps := s.temps ++ [(f.path, f.size)] })
        else (final₁, s)
      | .error _ => (final₁, s)
    else (final₁, s)
  -- line 199-202: `final_audio_path is None or getsize < 1024` → touch
  match afterFb.1 with
  | some (p, .copiedFrom p₂ sz) =>
    if sz < 1024 then ((outP, .placeholder), afterFb.2)
    else ((p, .copiedFrom p₂ sz), afterFb.2)
  | some (p, .placeholder) => ((p, .placeholder), afterFb.2)
  | none => ((outP, .placeholder), afterFb.2)

/-- Overall result of `generate_meditation`: the returned path, the content of
the output file, and the final orchestrator state. -/
structure GenResult where
  resultPath : String
  content : OutContent
  st : OrchState

/-- `MeditationOrchestrator.generate_meditation` (orchestrator.py:55-213) for a
given output path (the caller's, or the fresh temp file of lines 78-81). -/
def generate_meditation (o : OrchO) (outP : String) : GenResult :=
  let s₀ : OrchState := ⟨[], [], 0, []⟩
  match runAttempts o outP 5 s₀ with
  | (st, some (p, c)) => ⟨p, c, st⟩
  | (st, none) =>
    let r := exhaustedFallback o outP st
    ⟨r.1.1, r.1.2, r.2⟩

/-! ## Concrete fixtures used by witnesses and counterexamples -/

/-- The ten ASCII digit characters. -/
def pyDigits : List Char := ['0', '1', '2', '3', '4', '5', '6', '7', '8', '9']

/-- A 7-minute artifact with no other defect: 420000 ms, stereo, 16-bit,
44100 Hz, 128 kbps, −20 dBFS everywhere (all 1-second chunks non-silent). -/
def sevenMinArtifact : FileArtifact :=
  ⟨true, 2000000, some ⟨420000, 2, 16, 44100, 128, -20, fun _ => -20⟩⟩

/-- An all-failures environment: the retriever always offers the same URL and
every download (including the hardcoded fallback's) produces a 0-byte file. -/
def allFailO : OrchO :=
  ⟨fun _ => .ok "https://example.org/u.mp3",
   fun _ => .ok ⟨"/tmp/dl.mp3", 0⟩,
   fun _ => (false, 0),
   fun ps => ps⟩

/-- An environment where every download succeeds (20000-byte files, clean
paths) but the quality check rejects everything: the 5th attempt's file is
used anyway. -/
def allRejectO : OrchO :=
  ⟨fun n => .ok ("https://x/" ++ toString n ++ ".mp3"),
   fun u => .ok ⟨"dl_" ++ u, 20000⟩,
   fun _ => (false, 10),
   fun ps => ps⟩

/-- A scraping environment in which every source is empty/failing; used to
show `retrieverFindMeditation` does not depend on it. -/
def deadScrapeO : RetrieverScrapeO :=
  ⟨true, none, fun _ => none, fun _ => .error (), 0⟩

/-- Two cached Apple Music tracks. -/
def amTrackA : AmTrack := ⟨"A", some "https://preview/A.m4a"⟩

/-- Second cached Apple Music track. -/
def amTrackB : AmTrack := ⟨"B", some "https://preview/B.m4a"⟩

/-! ## Helper lemmas -/

theorem mem_pyDigits_isPyDigit {c : Char} (h : c ∈ pyDigits) : isPyDigit c = true := by
  fin_cases h <;> decide

theorem mem_pyDigits_not_space {c : Char} (h : c ∈ pyDigits) : isPySpace c = false := by
  fin_cases h <;> decide

theorem mem_pyDigits_toLower {c : Char} (h : c ∈ pyDigits) : Char.toLower c = c := by
  fin_cases h <;> decide

theorem mem_pyDigits_ne {c : Char} (h : c ∈ pyDigits) :
    c ≠ ':' ∧ c ≠ '+' ∧ c ≠ '-' ∧ c ≠ 'm' := by
  fin_cases h <;> decide

theorem dropWhile_eq_self_of {p : Char → Bool} {l : List Char}
    (h : ∀ x ∈ l, p x = false) : l.dropWhile p = l := by
  cases l with
  | nil => rfl
  | cons a t => simp [List.dropWhile_cons, h a (by simp)]

theorem pyStrip_eq_self {l : List Char} (h : ∀ x ∈ l, isPySpace x = false) :
    pyStrip l = l := by
  unfold pyStrip
  rw [dropWhile_eq_self_of h, dropWhile_eq_self_of (fun x hx => h x (by simpa using hx)),
    List.reverse_reverse]

theorem takeWhile_append_of {p : Char → Bool} {a r : List Char} {y : Char}
    (ha : ∀ x ∈ a, p x = true) (hy : p y = false) :
    (a ++ y :: r).takeWhile p = a := by
  induction a with
  | nil => simp [List.takeWhile_cons, hy]
  | cons x xs ih =>
    simp [List.takeWhile_cons, ha x (by simp),
      ih (fun z hz => ha z (by simp [hz]))]

theorem dropWhile_append_of {p : Char → Bool} {a r : List Char} {y : Char}
    (ha : ∀ x ∈ a, p x = true) (hy : p y = false) :
    (a ++ y :: r).dropWhile p = y :: r := by
  induction a with
  | nil => simp [List.dropWhile_cons, hy]
  | cons x xs ih =>
    simp [List.dropWhile_cons, ha x (by simp),
      ih (fun z hz => ha z (by simp [hz]))]

theorem mem_of_mem_dropWhile {p : Char → Bool} {l : List Char} {x : Char}
    (h : x ∈ l.dropWhile p) : x ∈ l :=
  (List.dropWhile_sublist p).mem h

theorem splitOnChar_ne_nil (sep : Char) (l : List Char) : splitOnChar sep l ≠ [] := by
  cases l with
  | nil => simp [splitOnChar]
  | cons c rest =>
    unfold splitOnChar
    cases splitOnChar sep rest with
    | nil => simp
    | cons h t =>
      by_cases hc : c = sep <;> simp [hc]

theorem splitOnChar_no_sep {sep : Char} {l : List Char} (h : ∀ x ∈ l, x ≠ sep) :
    splitOnChar sep l = [l] := by
  induction l with
  | nil => rfl
  | cons c rest ih =>
    have ih2 := ih (fun x hx => h x (by simp [hx]))
    unfold splitOnChar
    rw [ih2]
    simp [h c (by simp)]

theorem splitOnChar_append {sep : Char} {a r : List Char} (h : ∀ x ∈ a, x ≠ sep) :
    splitOnChar sep (a ++ sep :: r) = a :: splitOnChar sep r := by
  induction a with
  | nil =>
    simp only [List.nil_append]
    obtain ⟨h0, t0, ht⟩ := List.exists_cons_of_ne_nil (splitOnChar_ne_nil sep r)
    rw [splitOnChar.eq_def]
    simp [ht]
  | cons x xs ih =>
    have ih2 := ih (fun z hz => h z (by simp [hz]))
    simp only [List.cons_append]
    rw [splitOnChar.eq_def]
    simp [ih2, h x (by simp)]

theorem pyInt_digits {a : List Char} (h0 : a ≠ []) (h : ∀ x ∈ a, x ∈ pyDigits) :
    pyInt a = some (digitsVal a : Int) := by
  obtain ⟨d, t, rfl⟩ := List.exists_cons_of_ne_nil h0
  have hs : pyStrip (d :: t) = d :: t :=
    pyStrip_eq_self (fun x hx => mem_pyDigits_not_space (h x hx))
  have hd := mem_pyDigits_ne (h d (by simp))
  have hall : (d :: t).all isPyDigit = true :=
    List.all_eq_true.mpr (fun x hx => mem_pyDigits_isPyDigit (h x hx))
  unfold pyInt
  rw [hs]
  simp [hd.2.1, hd.2.2.1, hall]

theorem findNumM_none {l : List Char} (h : 'm' ∉ l) : findNumM l = none := by
  induction l with
  | nil => rfl
  | cons c rest ih =>
    have hrest : 'm' ∉ rest := fun hm => h (List.mem_cons_of_mem _ hm)
    have ihr := ih hrest
    by_cases hc : isPyDigit c = true
    · have hhead : ¬ ((List.dropWhile isPyDigit (c :: rest)).dropWhile isPySpace).headD ' ' = 'm' := by
        intro hm
        cases hA : (List.dropWhile isPyDigit (c :: rest)).dropWhile isPySpace with
        | nil => rw [hA] at hm; exact absurd hm (by decide)
        | cons y ys =>
          rw [hA] at hm
          simp only [List.headD_cons] at hm
          have hy : y ∈ (List.dropWhile isPyDigit (c :: rest)).dropWhile isPySpace := by
            rw [hA]; simp
          exact h (hm ▸ mem_of_mem_dropWhile (mem_of_mem_dropWhile hy))
      simp only [findNumM]
      rw [if_pos hc, if_neg hhead]
      exact ihr
    · simp only [findNumM]
      rw [if_neg hc]
      exact ihr

theorem findColon_digits {a b : List Char} (t : List Char) (ha0 : a ≠ []) (hb0 : b ≠ [])
    (ha : ∀ x ∈ a, x ∈ pyDigits) (hb : ∀ x ∈ b, x ∈ pyDigits) :
    findColon (a ++ ':' :: (b ++ ':' :: t)) = some (digitsVal a, digitsVal b) := by
  obtain ⟨d, a₂, rfl⟩ := List.exists_cons_of_ne_nil ha0
  obtain ⟨e, b₂, rfl⟩ := List.exists_cons_of_ne_nil hb0
  have hd : isPyDigit d = true := mem_pyDigits_isPyDigit (ha d (by simp))
  have he : isPyDigit e = true := mem_pyDigits_isPyDigit (hb e (by simp))
  have htw : List.takeWhile isPyDigit ((d :: a₂) ++ ':' :: ((e :: b₂) ++ ':' :: t)) = d :: a₂ :=
    takeWhile_append_of (fun x hx => mem_pyDigits_isPyDigit (ha x hx)) (by decide)
  have hdw : List.dropWhile isPyDigit ((d :: a₂) ++ ':' :: ((e :: b₂) ++ ':' :: t)) =
      ':' :: ((e :: b₂) ++ ':' :: t) :=
    dropWhile_append_of (fun x hx => mem_pyDigits_isPyDigit (ha x hx)) (by decide)
  have htw2 : List.takeWhile isPyDigit ((e :: b₂) ++ ':' :: t) = e :: b₂ :=
    takeWhile_append_of (fun x hx => mem_pyDigits_isPyDigit (hb x hx)) (by decide)
  simp only [List.cons_append] at htw hdw htw2 ⊢
  rw [findColon.eq_def]
  simp [hd, htw, hdw, he, htw2]

theorem is_duration_suitable_hours {a b c : List Char}
    (ha0 : a ≠ []) (hb0 : b ≠ []) (_hc0 : c ≠ [])
    (ha : ∀ x ∈ a, x ∈ pyDigits) (hb : ∀ x ∈ b, x ∈ pyDigits)
    (hc : ∀ x ∈ c, x ∈ pyDigits) (hpos : 0 < digitsVal a) :
    is_duration_suitable (a ++ ':' :: (b ++ ':' :: c)) = false := by
  have hnospace : ∀ x ∈ a ++ ':' :: (b ++ ':' :: c), isPySpace x = false := by
    intro x hx
    simp only [List.mem_append, List.mem_cons] at hx
    rcases hx with hx | hx | hx
    · exact mem_pyDigits_not_space (ha x hx)
    · subst hx; decide
    · rcases hx with hx | hx
      · exact mem_pyDigits_not_space (hb x hx)
      · rcases hx with hx | hx
        · subst hx; decide
        · exact mem_pyDigits_not_space (hc x hx)
  have hstrip := pyStrip_eq_self hnospace
  have hsplit : splitOnChar ':' (a ++ ':' :: (b ++ ':' :: c)) = [a, b, c] := by
    rw [splitOnChar_append (fun x hx => (mem_pyDigits_ne (ha x hx)).1),
      splitOnChar_append (fun x hx => (mem_pyDigits_ne (hb x hx)).1),
      splitOnChar_no_sep (fun x hx => (mem_pyDigits_ne (hc x hx)).1)]
  have hposI : (0 : Int) < (digitsVal a : Int) := by exact_mod_cast hpos
  unfold is_duration_suitable
  rw [hstrip, hsplit]
  simp [pyInt_digits ha0 ha, pyInt_digits hb0 hb, hposI]

theorem is_duration_suitable_text_hours {a b c : List Char}
    (ha0 : a ≠ []) (hb0 : b ≠ []) (_hc0 : c ≠ [])
    (ha : ∀ x ∈ a, x ∈ pyDigits) (hb : ∀ x ∈ b, x ∈ pyDigits)
    (hc : ∀ x ∈ c, x ∈ pyDigits) (hpos : 0 < digitsVal a) :
    is_duration_suitable_text (a ++ ':' :: (b ++ ':' :: c)) = false := by
  have hm : 'm' ∉ pyLower (a ++ ':' :: (b ++ ':' :: c)) := by
    intro hmem
    rcases List.mem_map.mp hmem with ⟨x, hx, hlx⟩
    simp only [List.mem_append, List.mem_cons] at hx
    rcases hx with hx | hx | hx
    · exact ((mem_pyDigits_ne (ha x hx)).2.2.2) ((mem_pyDigits_toLower (ha x hx)) ▸ hlx)
    · subst hx; exact absurd hlx (by decide)
    · rcases hx with hx | hx
      · exact ((mem_pyDigits_ne (hb x hx)).2.2.2) ((mem_pyDigits_toLower (hb x hx)) ▸ hlx)
      · rcases hx with hx | hx
        · subst hx; exact absurd hlx (by decide)
        · exact ((mem_pyDigits_ne (hc x hx)).2.2.2) ((mem_pyDigits_toLower (hc x hx)) ▸ hlx)
  have htotal : ¬ (digitsVal a * 60 + digitsVal b ≤ 15) := by omega
  unfold is_duration_suitable_text
  rw [findNumM_none hm, findColon_digits c ha0 hb0 ha hb]
  simp [htotal]

theorem pyChoiceTrack_mem {l : List AmTrack} (h : l ≠ []) (k : Nat) :
    pyChoiceTrack l k ∈ l := by
  have hlen : k % l.length < l.length := Nat.mod_lt _ (List.length_pos.mpr h)
  unfold pyChoiceTrack
  rw [List.getD_eq_getElem?_getD, List.getElem?_eq_getElem hlen]
  simp [List.getElem_mem]

theorem pyChoice_mem {l : List String} (h : l ≠ []) (k : Nat) :
    pyChoice l k ∈ l := by
  have hlen : k % l.length < l.length := Nat.mod_lt _ (List.length_pos.mpr h)
  unfold pyChoice
  rw [List.getD_eq_getElem?_getD, List.getElem?_eq_getElem hlen]
  simp [List.getElem_mem]

theorem pyChoice_surj {l : List String} {u : String} (h : u ∈ l) :
    ∃ k, pyChoice l k = u := by
  obtain ⟨j, hj, hu⟩ := List.getElem_of_mem h
  refine ⟨j, ?_⟩
  have hmod : j % l.length = j := Nat.mod_eq_of_lt hj
  unfold pyChoice
  rw [List.getD_eq_getElem?_getD, hmod, List.getElem?_eq_getElem hj]
  simpa using hu

theorem archive_direct_files_ne_nil (m : List Char) : archive_direct_files m ≠ [] := by
  unfold archive_direct_files
  repeat' split
  all_goals decide

theorem ucla_ne_nil : ucla_french_meditations ≠ [] := by
  unfold ucla_french_meditations
  simp

theorem attemptStep_final_fst {o : OrchO} {b : Bool} {outP : String} {s : OrchState}
    {p : String} {c : OutContent}
    (h : (attemptStep o b outP s).final = some (p, c)) : p = outP := by
  unfold attemptStep at h
  cases hp : pickUrl o.find s.calls s.failed with
  | error pe =>
    obtain ⟨lastUrl, calls₂⟩ := pe
    rw [hp] at h
    simp at h
  | ok uc =>
    obtain ⟨url, calls₂⟩ := uc
    rw [hp] at h
    dsimp only at h
    cases hd : o.download url with
    | error e =>
      rw [hd] at h
      simp at h
    | ok f =>
      rw [hd] at h
      dsimp only at h
      by_cases hm : (pathHasFailMarker f.path || decide (f.size < 10240)) = true
      · rw [if_pos hm] at h
        simp at h
      · rw [if_neg hm] at h
        by_cases hq : ((o.quality f.path).1 || b) = true
        · rw [if_pos hq] at h
          simp at h
          exact h.1.symm
        · rw [if_neg hq] at h
          simp at h

theorem runAttempts_final_fst {o : OrchO} {outP : String} :
    ∀ {n : Nat} {s st : OrchState} {p : String} {c : OutContent},
      runAttempts o outP n s = (st, some (p, c)) → p = outP := by
  intro n
  induction n with
  | zero =>
    intro s st p c h
    simp [runAttempts] at h
  | succ k ih =>
    intro s st p c h
    unfold runAttempts at h
    dsimp only at h
    cases hf : (attemptStep o (k = 0) outP s).final with
    | some f =>
      obtain ⟨p₂, c₂⟩ := f
      rw [hf] at h
      simp at h
      obtain ⟨-, hp, -⟩ := h
      exact hp ▸ attemptStep_final_fst hf
    | none =>
      rw [hf] at h
      exact ih h

theorem exhaustedFallback_fst (o : OrchO) (outP : String) (s : OrchState) :
    (exhaustedFallback o outP s).1.1 = outP := by
  unfold exhaustedFallback
  dsimp only
  cases hL : (List.filter (fun ps => decide (10240 < ps.2)) s.temps).getLast? with
  | none =>
    dsimp only
    rw [if_pos rfl]
    cases hD : o.download fallback_url with
    | ok f =>
      dsimp only
      by_cases hsz : 10240 < f.size
      · rw [if_pos hsz]
        dsimp only
        rw [if_neg (by omega)]
      · rw [if_neg hsz]
    | error e => rfl
  | some ps =>
    obtain ⟨p1, p2⟩ := ps
    have hmem : (p1, p2) ∈ List.filter (fun x => decide (10240 < x.2)) s.temps := by
      obtain ⟨ys, hys⟩ := List.getLast?_eq_some_iff.mp hL
      rw [hys]
      simp
    have hgt : 10240 < p2 := by simpa using (List.mem_filter.mp hmem).2
    dsimp only
    rw [if_neg (by simp; omega)]
    dsimp only
    rw [if_neg (by omega)]

/-! ## Claim theorems -/

/-- C3: the duration-suitability parsing of `AudioRetrieverAgent` judges
`"10:30"` suitable, `"9 min"` suitable, `"7:59"` not suitable and `"1:10:00"`
not suitable (element-level parser `_is_duration_suitable`); and every
`H:MM:SS` value whose hours component is greater than 0 is judged not suitable
by both `_is_duration_suitable` and `_is_duration_suitable_text`. -/
theorem c3_duration_suitability :
    (is_duration_suitable "10:30".toList = true) ∧
    (is_duration_suitable "9 min".toList = true) ∧
    (is_duration_suitable "7:59".toList = false) ∧
    (is_duration_suitable "1:10:00".toList = false) ∧
    (∀ a b c : List Char, a ≠ [] → b ≠ [] → c ≠ [] →
      (∀ x ∈ a, x ∈ pyDigits) → (∀ x ∈ b, x ∈ pyDigits) → (∀ x ∈ c, x ∈ pyDigits) →
      0 < digitsVal a →
      is_duration_suitable (a ++ ':' :: (b ++ ':' :: c)) = false ∧
      is_duration_suitable_text (a ++ ':' :: (b ++ ':' :: c)) = false) := by
  refine ⟨by decide, by decide, by decide, by decide, ?_⟩
  intro a b c ha0 hb0 hc0 ha hb hc hpos
  exact ⟨is_duration_suitable_hours ha0 hb0 hc0 ha hb hc hpos,
    is_duration_suitable_text_hours ha0 hb0 hc0 ha hb hc hpos⟩

/-- C3 witness: the hours-component rejection instantiated at `1:10:00`. -/
theorem c3_duration_suitability_witness :
    is_duration_suitable ("1".toList ++ ':' :: ("10".toList ++ ':' :: "00".toList)) = false ∧
    is_duration_suitable_text ("1".toList ++ ':' :: ("10".toList ++ ':' :: "00".toList)) = false :=
  c3_duration_suitability.2.2.2.2 "1".toList "10".toList "00".toList
    (by decide) (by decide) (by decide) (by decide) (by decide) (by decide) (by decide)

/-- C5: a 7-minute artifact (inside the 5–15-minute fallback range, outside
the 8–12-minute ideal range) with no other defect is accepted with exactly one
recorded issue; in general `check_quality` accepts any artifact whose computed
issues list is a single minor issue (duration outside ideal range, long silent
intro, or long silent outro). -/
theorem c5_soft_pass :
    (check_quality sevenMinArtifact = (true, .report true [.durationIdeal])) ∧
    (∀ (f : FileArtifact) (a : AudioProps) (i : QIssue),
      f.present = true → ¬ f.size < 1024 → f.load = some a →
      qualityIssues a = [i] → minorIssue i = true →
      check_quality f = (true, .report true [i])) := by
  constructor
  · decide
  · intro f a i hp hs hl hiss hmin
    unfold check_quality
    rw [if_neg (not_not_intro hp), if_neg hs, hl]
    simp [qualityAcceptable, hiss, hmin]

/-- C5 witness: the general soft-pass rule applied to the concrete 7-minute
artifact. -/
theorem c5_soft_pass_witness :
    check_quality sevenMinArtifact = (true, .report true [QIssue.durationIdeal]) :=
  c5_soft_pass.2 sevenMinArtifact ⟨420000, 2, 16, 44100, 128, -20, fun _ => -20⟩
    .durationIdeal rfl (by decide) rfl (by decide) (by decide)

/-- C6: `check_quality` rejects a missing, sub-1KB (hence any 0-byte), or
unloadable artifact immediately with the corresponding specific error code
(`"File does not exist"`, `"File too small"` with the byte count, or
`"Failed to analyze audio"`), and for a missing or sub-1KB artifact the result
does not depend on any audio measurement. -/
theorem c6_early_reject :
    (∀ f : FileArtifact, f.present = false →
      check_quality f = (false, .err .fileDoesNotExist)) ∧
    (∀ f : FileArtifact, f.present = true → f.size < 1024 →
      check_quality f = (false, .err (.fileTooSmall f.size))) ∧
    (∀ f : FileArtifact, f.present = true → ¬ f.size < 1024 → f.load = none →
      check_quality f = (false, .err .analysisFailed)) ∧
    (∀ (present : Bool) (size : Nat) (l₁ l₂ : Option AudioProps),
      present = false ∨ size < 1024 →
      check_quality ⟨present, size, l₁⟩ = check_quality ⟨present, size, l₂⟩) := by
  refine ⟨?_, ?_, ?_, ?_⟩
  · intro f hp
    unfold check_quality
    rw [if_pos (by simp [hp])]
  · intro f hp hs
    unfold check_quality
    rw [if_neg (not_not_intro hp), if_pos hs]
  · intro f hp hs hl
    unfold check_quality
    rw [if_neg (not_not_intro hp), if_neg hs, hl]
  · intro present size l₁ l₂ h
    rcases h with hp | hs
    · subst hp
      unfold check_quality
      rw [if_pos (by simp), if_pos (by simp)]
    · unfold check_quality
      by_cases hp : present = true
      · rw [if_neg (not_not_intro hp), if_neg (not_not_intro hp), if_pos hs, if_pos hs]
      · rw [if_pos (by simpa using hp), if_pos (by simpa using hp)]

/-- C6 witness: the 0-byte artifact is rejected with the too-small error code
and byte count 0, before any measurement. -/
theorem c6_early_reject_witness :
    check_quality ⟨true, 0, none⟩ = (false, .err (.fileTooSmall 0)) :=
  c6_early_reject.2.1 ⟨true, 0, none⟩ rfl (by decide)

/-- C7: when the cached candidate list for the key is non-empty but every
cached track is in the recently-used list, `AppleMusicAgent.find_meditation`
still returns one of the cached tracks (the exclusion filter is reset to the
full cached list) and the result does not depend on the network search at
all. -/
theorem c7_cache_starvation_guard :
    ∀ (ts : List AmTrack) (recent : List String) (cachePick netPick : Nat)
      (netTracks : List AmTrack),
      ts ≠ [] → (∀ t ∈ ts, recent.contains t.trackId = true) →
      (appleFindMeditation (some ts) recent cachePick netTracks netPick).1
          = some (pyChoiceTrack ts cachePick) ∧
      pyChoiceTrack ts cachePick ∈ ts ∧
      (∀ (netTracks₂ : List AmTrack) (netPick₂ : Nat),
        appleFindMeditation (some ts) recent cachePick netTracks₂ netPick₂
          = appleFindMeditation (some ts) recent cachePick netTracks netPick) := by
  intro ts recent cachePick netPick netTracks hne hall
  have hfilter : ts.filter (fun t => ¬ recent.contains t.trackId) = [] :=
    List.filter_eq_nil_iff.mpr (fun t ht => by simpa using hall t ht)
  have hts : ts.isEmpty = false := List.isEmpty_eq_false.mpr hne
  refine ⟨?_, pyChoiceTrack_mem hne cachePick, ?_⟩
  · unfold appleFindMeditation
    dsimp only
    rw [hts, hfilter]
    simp [hts]
  · intro netTracks₂ netPick₂
    unfold appleFindMeditation
    dsimp only
    rw [hts, hfilter]
    simp [hts]

/-- C7 witness: a cache `[A, B]` with recently-used `{A, B}` still serves a
cached track, here `B`, without consulting the network. -/
theorem c7_cache_starvation_guard_witness :
    (appleFindMeditation (some [amTrackA, amTrackB]) ["A", "B"] 1 [] 0).1
        = some (pyChoiceTrack [amTrackA, amTrackB] 1) ∧
    pyChoiceTrack [amTrackA, amTrackB] 1 ∈ [amTrackA, amTrackB] ∧
    (∀ (netTracks₂ : List AmTrack) (netPick₂ : Nat),
      appleFindMeditation (some [amTrackA, amTrackB]) ["A", "B"] 1 netTracks₂ netPick₂
        = appleFindMeditation (some [amTrackA, amTrackB]) ["A", "B"] 1 [] 0) :=
  c7_cache_starvation_guard [amTrackA, amTrackB] ["A", "B"] 1 0 []
    (by decide) (by decide)

/-- C8: the recently-used list is a bounded FIFO of size at most 5: a push
keeps the length within 5, a push onto a full list evicts exactly the oldest
entry, and after pushing 6 distinct identifiers onto an empty list the first
one is gone and exactly 5 remain. -/
theorem c8_recently_used_fifo :
    (∀ (recent : List String) (t : String), recent.length ≤ 5 →
      (pushRecent recent t).length ≤ 5) ∧
    (∀ (recent : List String) (t : String), recent.length = 5 →
      pushRecent recent t = recent.tail ++ [t]) ∧
    (List.foldl pushRecent [] ["t1", "t2", "t3", "t4", "t5", "t6"]
        = ["t2", "t3", "t4", "t5", "t6"] ∧
      "t1" ∉ List.foldl pushRecent [] ["t1", "t2", "t3", "t4", "t5", "t6"] ∧
      (List.foldl pushRecent [] ["t1", "t2", "t3", "t4", "t5", "t6"]).length = 5) := by
  refine ⟨?_, ?_, by decide, by decide, by decide⟩
  · intro recent t h
    unfold pushRecent
    dsimp only
    split
    · next hgt =>
      simp only [List.length_tail, List.length_append, List.length_singleton] at hgt ⊢
      omega
    · next hle =>
      simp only [List.length_append, List.length_singleton] at hle ⊢
      omega
  · intro recent t h
    have hne : recent ≠ [] := by
      intro hnil
      rw [hnil] at h
      simp at h
    obtain ⟨x, xs, rfl⟩ := List.exists_cons_of_ne_nil hne
    simp only [List.length_cons] at h
    unfold pushRecent
    dsimp only
    rw [if_pos (by simp; omega)]
    simp

/-- C8 witness: the length bound applied to a concrete full list. -/
theorem c8_recently_used_fifo_witness :
    (pushRecent ["a", "b", "c", "d", "e"] "f").length ≤ 5 :=
  c8_recently_used_fifo.1 ["a", "b", "c", "d", "e"] "f" (by decide)

/-- C10: `AudioRetrieverAgent.find_meditation` always returns a hardcoded URL
without any network request: for (lowercased, stripped) language `"french"` a
random UCLA meditation URL regardless of mood, otherwise a random entry of the
mood's (or the default) `archive_direct_files` list — those lists are never
empty, so the scraping branches are unreachable and the result does not depend
on the scraping oracles; every entry of the relevant list is reachable by some
random index. -/
theorem c10_retriever_hardcoded :
    ∀ (mood language : String) (uclaPick moodPick : Nat) (o : RetrieverScrapeO),
      (pyLower (pyStrip language.toList) = "french".toList →
        retrieverFindMeditation mood language uclaPick moodPick o
          = .ok (pyChoice ucla_french_meditations uclaPick) ∧
        pyChoice ucla_french_meditations uclaPick ∈ ucla_french_meditations) ∧
      (pyLower (pyStrip language.toList) ≠ "french".toList →
        retrieverFindMeditation mood language uclaPick moodPick o
          = .ok (pyChoice (archive_direct_files (pyLower (pyStrip mood.toList))) moodPick) ∧
        pyChoice (archive_direct_files (pyLower (pyStrip mood.toList))) moodPick
          ∈ archive_direct_files (pyLower (pyStrip mood.toList))) ∧
      (∀ o₂ : RetrieverScrapeO,
        retrieverFindMeditation mood language uclaPick moodPick o₂
          = retrieverFindMeditation mood language uclaPick moodPick o) ∧
      (∀ u ∈ ucla_french_meditations, ∃ k, pyChoice ucla_french_meditations k = u) ∧
      (∀ (m : List Char), ∀ u ∈ archive_direct_files m,
        ∃ k, pyChoice (archive_direct_files m) k = u) := by
  intro mood language uclaPick moodPick o
  have hmf : ¬ (archive_direct_files (pyLower (pyStrip mood.toList))).isEmpty = true := by
    simp [List.isEmpty_eq_false.mpr (archive_direct_files_ne_nil _)]
  refine ⟨?_, ?_, ?_, ?_, ?_⟩
  · intro hfr
    unfold retrieverFindMeditation
    rw [if_pos hfr]
    exact ⟨rfl, pyChoice_mem ucla_ne_nil uclaPick⟩
  · intro hnf
    unfold retrieverFindMeditation
    rw [if_neg hnf]
    dsimp only
    rw [if_pos hmf]
    exact ⟨rfl, pyChoice_mem (archive_direct_files_ne_nil _) moodPick⟩
  · intro o₂
    unfold retrieverFindMeditation
    by_cases hfr : pyLower (pyStrip language.toList) = "french".toList
    · rw [if_pos hfr, if_pos hfr]
    · rw [if_neg hfr, if_neg hfr]
      dsimp only
      rw [if_pos hmf, if_pos hmf]
  · intro u hu
    exact pyChoice_surj hu
  · intro m u hu
    exact pyChoice_surj hu

/-- C10 witness: mood `" Calm "` with language `"English"` yields an
Archive.org direct file of the calm pool; language `"FRENCH "` yields a UCLA
file. -/
theorem c10_retriever_hardcoded_witness :
    (retrieverFindMeditation " Calm " "English" 0 1 deadScrapeO
        = .ok (pyChoice (archive_direct_files (pyLower (pyStrip " Calm ".toList))) 1) ∧
      pyChoice (archive_direct_files (pyLower (pyStrip " Calm ".toList))) 1
        ∈ archive_direct_files (pyLower (pyStrip " Calm ".toList))) ∧
    (retrieverFindMeditation "happy" "FRENCH " 2 0 deadScrapeO
        = .ok (pyChoice ucla_french_meditations 2) ∧
      pyChoice ucla_french_meditations 2 ∈ ucla_french_meditations) :=
  ⟨(c10_retriever_hardcoded " Calm " "English" 0 1 deadScrapeO).2.1 (by decide),
   (c10_retriever_hardcoded "happy" "FRENCH " 2 0 deadScrapeO).1 (by decide)⟩

/-- C2: every fallback path of `AudioRetrieverAgent._scrape_pixabay` — the
transport-error handler, the 403 and non-200 status branches and the
no-links-found branch — evaluates `self.reliable_meditation_urls`, an attribute
no code in the repository ever assigns, so instead of returning a fallback
value the method raises `AttributeError`.  (The scrape is unreachable from
`find_meditation`, whose direct-file lists always answer first — see the C10
theorem — so the bug is latent.) -/
theorem c2_pixabay_attribute_error :
    scrape_pixabay (.error ()) 0 = .error .attributeError ∧
    scrape_pixabay (.ok ⟨403, ["https://pixabay.com/a.mp3"]⟩) 0 = .error .attributeError ∧
    scrape_pixabay (.ok ⟨500, ["https://pixabay.com/a.mp3"]⟩) 0 = .error .attributeError ∧
    scrape_pixabay (.ok ⟨200, []⟩) 0 = .error .attributeError :=
  ⟨rfl, rfl, rfl, rfl⟩

/-- C9: in the attempt loop of `generate_meditation`, when the attempt is the
last one (`attempt == max_attempts`), a successfully downloaded candidate that
the quality check rejects is still used: the attempt sets the final output
(copying the file to the output path), does not add the URL to the failed set,
and reports `is_acceptable = false`; concretely, after four rejected attempts
the 5th attempt's rejected download becomes the returned meditation. -/
theorem c9_last_attempt_uses_rejected :
    (∀ (o : OrchO) (s : OrchState) (outP url : String) (c : Nat) (f : DlFile),
      pickUrl o.find s.calls s.failed = .ok (url, c) →
      o.download url = .ok f →
      pathHasFailMarker f.path = false →
      ¬ f.size < 10240 →
      (o.quality f.path).1 = false →
      (attemptStep o true outP s).final.isSome = true ∧
      (attemptStep o true outP s).st.failed = s.failed ∧
      (attemptStep o true outP s).accepted = false) ∧
    ((generate_meditation allRejectO "/out.mp3").content
        = OutContent.copiedFrom "dl_https://x/4.mp3" 20000 ∧
      (generate_meditation allRejectO "/out.mp3").resultPath = "/out.mp3" ∧
      ¬ "https://x/4.mp3" ∈ (generate_meditation allRejectO "/out.mp3").st.failed) := by
  constructor
  · intro o s outP url c f hpick hdl hmark hsize hq
    unfold attemptStep
    simp only [hpick, hdl]
    rw [if_neg (by simp [hmark, hsize])]
    rw [if_pos (by simp)]
    exact ⟨rfl, rfl, hq⟩
  · exact ⟨by decide, by decide, by decide⟩

/-- C9 witness: the last-attempt rule applied to the concrete all-rejecting
environment at the initial orchestrator state. -/
theorem c9_last_attempt_uses_rejected_witness :
    (attemptStep allRejectO true "/out.mp3" ⟨[], [], 0, []⟩).final.isSome = true ∧
    (attemptStep allRejectO true "/out.mp3" ⟨[], [], 0, []⟩).st.failed = [] ∧
    (attemptStep allRejectO true "/out.mp3" ⟨[], [], 0, []⟩).accepted = false :=
  c9_last_attempt_uses_rejected.1 allRejectO ⟨[], [], 0, []⟩ "/out.mp3"
    "https://x/0.mp3" 1 ⟨"dl_https://x/0.mp3", 20000⟩
    rfl rfl (by decide) (by decide) rfl

/-- C4 counterexample: when all three retriever candidates are already in the
failed set, the URL-selection loop hands the third candidate to the downloader
even though it is excluded ("using the last one anyway", orchestrator.py:106);
in the all-failures run the 2nd download call receives a URL already flagged as
failed. -/
theorem c4_no_excluded_download_counterexample :
    pickUrl (fun _ => .ok "u") 0 ["u"] = .ok ("u", 3) ∧
    (["u"] : List String).contains "u" = true ∧
    ((generate_meditation allFailO "/tmp/out.mp3").st.trace.getD 1 ("", false)).2 = true :=
  ⟨rfl, by decide, by decide⟩

/-- C4 (amended): the URL handed to the downloader is not in the failed set
unless all three candidates offered by the retriever during the per-attempt
retry loop were already failed, in which case the third candidate is used even
though it is in the failed set. -/
theorem c4_no_excluded_download_amended :
    ∀ (find : Nat → Except Unit String) (calls : Nat) (failed : List String)
      (r : String) (c : Nat),
      pickUrl find calls failed = .ok (r, c) →
      failed.contains r = false ∨
        (failed.contains r = true ∧ find (calls + 2) = .ok r) := by
  intro find calls failed r c h
  unfold pickUrl at h
  cases h1 : find calls with
  | error e => rw [h1] at h; exact absurd h (by simp)
  | ok u1 =>
    rw [h1] at h
    dsimp only at h
    by_cases hc1 : failed.contains u1 = true
    · rw [if_neg (by simpa using hc1)] at h
      cases h2 : find (calls + 1) with
      | error e => rw [h2] at h; exact absurd h (by simp)
      | ok u2 =>
        rw [h2] at h
        dsimp only at h
        by_cases hc2 : failed.contains u2 = true
        · rw [if_neg (by simpa using hc2)] at h
          cases h3 : find (calls + 2) with
          | error e => rw [h3] at h; exact absurd h (by simp)
          | ok u3 =>
            rw [h3] at h
            dsimp only at h
            simp only [Except.ok.injEq, Prod.mk.injEq] at h
            obtain ⟨rfl, -⟩ := h
            by_cases hcr : failed.contains u3 = true
            · exact Or.inr ⟨hcr, rfl⟩
            · exact Or.inl (by simpa using hcr)
        · rw [if_pos (by simpa using hc2)] at h
          simp only [Except.ok.injEq, Prod.mk.injEq] at h
          obtain ⟨rfl, -⟩ := h
          exact Or.inl (by simpa using hc2)
    · rw [if_pos (by simpa using hc1)] at h
      simp only [Except.ok.injEq, Prod.mk.injEq] at h
      obtain ⟨rfl, -⟩ := h
      exact Or.inl (by simpa using hc1)

/-- C4 witness: the amended rule applied to the loop that only ever sees an
already-failed URL. -/
theorem c4_no_excluded_download_witness :
    (["u"] : List String).contains "u" = false ∨
      ((["u"] : List String).contains "u" = true ∧
        (fun _ => (Except.ok "u" : Except Unit String)) (0 + 2) = Except.ok "u") :=
  c4_no_excluded_download_amended (fun _ => .ok "u") 0 ["u"] "u" 3 rfl

/-- C1 counterexample: with every content source offering the same URL and
every download (the hardcoded freemindfulness fallback's included) producing a
0-byte file, `generate_meditation` returns the path of an empty placeholder
file — an empty result, not the hardcoded reliable reference the claim
promises. -/
theorem c1_exhaustion_counterexample :
    (generate_meditation allFailO "/tmp/out.mp3").content = OutContent.placeholder ∧
    (generate_meditation allFailO "/tmp/out.mp3").resultPath = "/tmp/out.mp3" :=
  ⟨by decide, by decide⟩

/-- C1 (amended): `generate_meditation` never raises (all oracle failures are
routed through its exception handlers) and always returns its output path —
non-empty whenever the output path is — within the bounded attempt budget; on
exhaustion it attempts the hardcoded freemindfulness fallback URL, and if that
download also fails the returned file is an empty placeholder rather than an
error. -/
theorem c1_always_returns_path :
    ∀ (o : OrchO) (outP : String),
      (generate_meditation o outP).resultPath = outP ∧
      (outP ≠ "" → (generate_meditation o outP).resultPath ≠ "") := by
  intro o outP
  have h : (generate_meditation o outP).resultPath = outP := by
    unfold generate_meditation
    cases hr : runAttempts o outP 5 ⟨[], [], 0, []⟩ with
    | mk st res =>
      cases res with
      | some pc =>
        obtain ⟨p, c⟩ := pc
        simp only [hr]
        exact runAttempts_final_fst hr
      | none =>
        simp only [hr]
        exact exhaustedFallback_fst o outP st
  exact ⟨h, fun hne => by rw [h]; exact hne⟩

/-- C1 witness: the never-empty-path guarantee at the all-failures
environment. -/
theorem c1_always_returns_path_witness :
    (generate_meditation allFailO "/tmp/out.mp3").resultPath ≠ "" :=
  (c1_always_returns_path allFailO "/tmp/out.mp3").2 (by decide)

end DailyMeditation
